import Mathlib

/-!
Verification of the debt sizing / amortization / cash-flow aggregation /
XIRR layer of the renew-asset-platform backend.

Shallow embedding conventions:
- Money amounts, rates and DSCR values are rationals (the Python code uses
  floats; the spec states its invariants "to floating-point tolerance",
  which over the rationals is exact equality).
- Calendar dates carry only the resolution the code uses: monthly model
  periods are integer month indices (12 * year + month0, month0 in 0..11,
  so the calendar year of a period is floor division by 12), XNPV/XIRR
  dates are integer day numbers ((date - reference).days in the source).
- pandas Series/DataFrames become lists of rows or lookup functions;
  a Python function that can raise becomes an Except-valued function.
-/

/-- One year of the annual sculpted schedule built by
`calculate_annual_debt_schedule` (backend/calculations/debt.py, lines 47-104).
`dscr = none` models the Python `float('inf')` stored when debt service is
zero; the padded years past the cash-flow series keep the initialised 0.0,
modelled as `some 0`. -/
structure YearEntry where
  interest : ℚ
  principal : ℚ
  service : ℚ
  dscr : Option ℚ
  deriving DecidableEq

/-- `target_dscrs[year] if year < len(target_dscrs) else target_dscrs[-1]`
(debt.py line 66).  On an empty list Python raises IndexError; the junk
default 1 below is never relied on: theorems about nonempty loops carry the
hypothesis that the target list is nonempty. -/
def targetAt (tds : List ℚ) (y : ℕ) : ℚ :=
  tds.getD y (tds.getLastD 1)

/-- `max_debt_service = operating_cash_flow / target_dscr if target_dscr > 0
else 0` (debt.py line 69). -/
def maxDS (cf tgt : ℚ) : ℚ :=
  if tgt > 0 then cf / tgt else 0

/-- `principal_payments[year] = min(max(0, max_debt_service - interest), balance)`
(debt.py lines 72-75), with the interest `b * r` on the opening balance. -/
def sculptPrincipal (r b : ℚ) (p : ℚ × ℚ) : ℚ :=
  min (max 0 (maxDS p.1 p.2 - b * r)) b

/-- One year of the balance recursion: `debt_balance[y+1] = debt_balance[y] -
principal_payments[y]` (debt.py line 84). -/
def stepBalance (r b : ℚ) (p : ℚ × ℚ) : ℚ :=
  b - sculptPrincipal r b p

/-- The (cash flow, target DSCR) pairs the year loop actually visits: the
loop runs `for year in range(tenor_years)` and breaks at
`year >= len(cash_flows)` (debt.py lines 57-59). -/
def sculptPairs (cfs tds : List ℚ) (tenor : ℕ) : List (ℚ × ℚ) :=
  (List.range (min tenor cfs.length)).map (fun y => (cfs.getD y 0, targetAt tds y))

/-- One iteration of the row loop of `calculate_annual_debt_schedule`:
append this year's interest / principal / debt service / DSCR row and
advance the balance. -/
def annualRowStep (r : ℚ) (acc : List YearEntry × ℚ) (p : ℚ × ℚ) :
    List YearEntry × ℚ :=
  let b := acc.2
  let i := b * r
  let pr := sculptPrincipal r b p
  let ds := i + pr
  let dscr : Option ℚ := if ds > 0 then some (p.1 / ds) else none
  (acc.1 ++ [⟨i, pr, ds, dscr⟩], stepBalance r b p)

/-- `calculate_annual_debt_schedule` (debt.py lines 32-104).  Returns the
per-year rows, the final balance `debt_balance[tenor_years]`, and the
`fully_repaid` flag (`debt_balance[tenor_years] < 1000`, line 87).
When the cash-flow series is shorter than the tenor the Python loop breaks
early and index `tenor_years` of `debt_balance` keeps its initialised 0.0;
years past the break keep all-zero rows (`dscr_values[year]` stays 0.0).
The metrics `avg_debt_service` / `min_dscr` of the returned dict are not
needed by any claim and are omitted. -/
def calculate_annual_debt_schedule (D : ℚ) (cfs : List ℚ) (r : ℚ)
    (tenor : ℕ) (tds : List ℚ) : List YearEntry × ℚ × Bool :=
  let run := (sculptPairs cfs tds tenor).foldl (annualRowStep r) ([], D)
  let rows := run.1 ++ List.replicate (tenor - min tenor cfs.length) ⟨0, 0, 0, some 0⟩
  let finalBal := if cfs.length < tenor then 0 else run.2
  (rows, finalBal, decide (finalBal < 1000))

/-- The final balance of the annual schedule, as a standalone fold. -/
def finalBalance (D : ℚ) (cfs : List ℚ) (r : ℚ) (tenor : ℕ) (tds : List ℚ) : ℚ :=
  if cfs.length < tenor then 0
  else (sculptPairs cfs tds tenor).foldl (stepBalance r) D

/-- `schedule['metrics']['fully_repaid']`: the candidate debt amount is
feasible (debt.py line 87, `< 1000` is the $1k tolerance). -/
def fullyRepaid (D : ℚ) (cfs : List ℚ) (r : ℚ) (tenor : ℕ) (tds : List ℚ) : Bool :=
  decide (finalBalance D cfs r tenor tds < 1000)

/-- The binary-search loop of `solve_maximum_debt` (debt.py lines 144-168):
`while iteration < max_iterations and (upper_bound - lower_bound) > tolerance`,
with tolerance 1000 and max_iterations 50.  State is (lower, upper, best). -/
def solveLoop (cfs : List ℚ) (r : ℚ) (tenor : ℕ) (tds : List ℚ) :
    ℕ → ℚ → ℚ → ℚ → ℚ × ℚ × ℚ
  | 0, lo, up, best => (lo, up, best)
  | fuel + 1, lo, up, best =>
    if up - lo > 1000 then
      if fullyRepaid ((lo + up) / 2) cfs r tenor tds then
        solveLoop cfs r tenor tds fuel ((lo + up) / 2) up ((lo + up) / 2)
      else
        solveLoop cfs r tenor tds fuel lo ((lo + up) / 2) best
    else (lo, up, best)

/-- Result of `solve_maximum_debt`.  `degenerate` is the early
`return 0, None, None, None, None, None, None, None, None` taken when
`capex == 0` (debt.py lines 122-124): debt 0 and no schedule (the
locally-built `empty_df` is discarded).  `solution` is the normal
`{'debt': ..., 'gearing': ..., 'schedule': ...}` dict. -/
inductive SolveResult where
  | degenerate : SolveResult
  | solution (debt gearing : ℚ) (schedule : List YearEntry × ℚ × Bool) : SolveResult
  deriving DecidableEq

/-- The debt amount carried by a `SolveResult` (0 for the degenerate case). -/
def debtOf : SolveResult → ℚ
  | .degenerate => 0
  | .solution d _ _ => d

/-- `solve_maximum_debt` (debt.py lines 106-189).  The loop's best-so-far
schedule is always `calculate_annual_debt_schedule` at `best_debt`, and when
`best_debt == 0` the code recomputes exactly that at 0 (lines 171-172), so
the returned schedule is uniformly the annual schedule at the returned debt.
`actual_gearing = best_debt / capex if capex > 0 else 0` (line 174). -/
def solve_maximum_debt (capex : ℚ) (cfs tds : List ℚ) (mg r : ℚ)
    (tenor : ℕ) : SolveResult :=
  if capex = 0 then .degenerate
  else
    let res := solveLoop cfs r tenor tds 50 0 (capex * mg) 0
    let best := res.2.2
    .solution best (if capex > 0 then best / capex else 0)
      (calculate_annual_debt_schedule best cfs r tenor tds)

/-- Repayment frequency (`'monthly' | 'quarterly'`).  The code branches only
on these two strings; they are modelled as a closed inductive. -/
inductive Freq where
  | monthly : Freq
  | quarterly : Freq
  deriving DecidableEq

/-- The month step of the payment-date generator (debt.py lines 372-375). -/
def stepOf : Freq → ℤ
  | .monthly => 1
  | .quarterly => 3

/-- One row of the monthly debt schedule DataFrame built by
`generate_debt_schedule` (columns of debt.py lines 339-347). -/
structure DebtEntry where
  asset_id : ℕ
  date : ℤ
  beginning_balance : ℚ
  drawdowns : ℚ
  interest : ℚ
  principal : ℚ
  ending_balance : ℚ
  deriving DecidableEq

/-- The construction drawdown pass of `generate_debt_schedule` (debt.py
lines 349-363): walk the asset's capex rows in order, and for a row whose
date is in the schedule while `current_drawn < debt_amount`, assign
`min(row_capex * actual_gearing, debt_amount - current_drawn)` to that
date's drawdown (a plain column assignment, so a duplicated capex date
overwrites) and add it to `current_drawn`.  Skipped entirely unless
`total_capex > 0`.  Returns the drawdown column as a date-indexed map. -/
def drawStep (debt_amount gearing : ℚ) (dateRange : List ℤ)
    (acc : (ℤ → ℚ) × ℚ) (row : ℤ × ℚ) : (ℤ → ℚ) × ℚ :=
  if row.1 ∈ dateRange ∧ acc.2 < debt_amount then
    let dd := min (row.2 * gearing) (debt_amount - acc.2)
    (fun d => if d = row.1 then dd else acc.1 d, acc.2 + dd)
  else acc

/-- The drawdown column, folding `drawStep` over the capex rows with
`actual_gearing = debt_amount / total_capex`. -/
def drawdownFn (debt_amount : ℚ) (capexRows : List (ℤ × ℚ))
    (dateRange : List ℤ) : ℤ → ℚ :=
  let total := (capexRows.map Prod.snd).sum
  if total > 0 then
    (capexRows.foldl (drawStep debt_amount (debt_amount / total) dateRange)
      (fun _ => 0, 0)).1
  else fun _ => 0

/-- The payment dates of debt.py lines 365-375: start at the debt-service
start date and step by 1 month (monthly) or 3 months (quarterly) while
`current_payment_date <= asset_end_date`, where the asset end date is
`cod + relativedelta(years=asset_life)`. -/
def paymentDates (dss endD stepM : ℤ) : List ℤ :=
  (List.range (((endD - dss).fdiv stepM + 1).toNat)).map
    (fun k => dss + stepM * (k : ℤ))

/-- State of the period loop of `generate_debt_schedule`: emitted rows, the
running balance, and the quarterly interest accumulator. -/
structure GenState where
  rows : List DebtEntry
  balance : ℚ
  qacc : ℚ

/-- One iteration of the period loop of `generate_debt_schedule` (debt.py
lines 386-435), for period date `d`:
- `beginning_balance` is the running balance, then drawdowns are added;
- monthly: on a payment date with positive balance after the debt-service
  start, interest is `balance * period_rate` and principal is sculpted from
  the period's CFADS and the year's blended target (default 1.4) when the
  cash-flow row exists, else the straight-line fallback
  `debt_amount / total_payments`; both capped at the balance;
- quarterly: interest accrues monthly at `annual_rate / 12` into the
  accumulator, and on a payment date principal is
  `(debt_amount / total_payments) * 3` capped at the balance, with the
  accumulator paid out and reset. -/
def genStep (debt_amount : ℚ) (acf : ℤ → Option ℚ) (bd : ℤ → Option ℚ)
    (dss : ℤ) (period_rate : ℚ) (total_payments : ℤ) (freq : Freq)
    (annualRate : ℚ) (pdates : List ℤ) (draw : ℤ → ℚ) (assetId : ℕ)
    (st : GenState) (d : ℤ) : GenState :=
  let dd := draw d
  let bal := st.balance + dd
  if d ≥ dss ∧ bal > 0 then
    match freq with
    | .monthly =>
      if d ∈ pdates then
        let mi := bal * period_rate
        let pp :=
          match acf d with
          | some cfads =>
            let tgt := (bd (d.fdiv 12)).getD (7 / 5)
            let mds := if tgt > 0 then cfads / tgt else 0
            min (max 0 (mds - mi)) bal
          | none =>
            if total_payments > 0 then
              min (debt_amount / (total_payments : ℚ)) bal
            else 0
        ⟨st.rows ++ [⟨assetId, d, st.balance, dd, mi, pp, bal - pp⟩], bal - pp, st.qacc⟩
      else ⟨st.rows ++ [⟨assetId, d, st.balance, dd, 0, 0, bal⟩], bal, st.qacc⟩
    | .quarterly =>
      let mi := bal * (annualRate / 12)
      let q := st.qacc + mi
      if d ∈ pdates then
        let qp :=
          if total_payments > 0 then
            min (debt_amount / (total_payments : ℚ) * 3) bal
          else 0
        ⟨st.rows ++ [⟨assetId, d, st.balance, dd, q, qp, bal - qp⟩], bal - qp, 0⟩
      else ⟨st.rows ++ [⟨assetId, d, st.balance, dd, 0, 0, bal⟩], bal, q⟩
  else ⟨st.rows ++ [⟨assetId, d, st.balance, dd, 0, 0, bal⟩], bal, st.qacc⟩

/-- `generate_debt_schedule` (debt.py lines 319-437).  `acf` is the asset's
date-indexed cash flow (`asset_cash_flow.loc[date, 'cfads']`, absent dates
give `none`), `bd` the year-indexed blended DSCR series (`blended_dscr.get
(year, 1.4)`).  With `debt_amount == 0` the early return emits an all-zero
row per period (lines 325-336).  The locally computed `tenor_years` of
lines 379-380 is never used afterwards and is omitted. -/
def generate_debt_schedule (debt_amount : ℚ) (assetLife : ℕ)
    (capexRows : List (ℤ × ℚ)) (acf : ℤ → Option ℚ) (bd : ℤ → Option ℚ)
    (dss : ℤ) (period_rate : ℚ) (total_payments : ℤ) (freq : Freq)
    (dateRange : List ℤ) (cod : ℤ) (annualRate : ℚ) (assetId : ℕ) :
    List DebtEntry :=
  if debt_amount = 0 then
    dateRange.map (fun d => ⟨assetId, d, 0, 0, 0, 0, 0⟩)
  else
    let draw := drawdownFn debt_amount capexRows dateRange
    let pdates := paymentDates dss (cod + 12 * (assetLife : ℤ)) (stepOf freq)
    (dateRange.foldl
      (genStep debt_amount acf bd dss period_rate total_payments freq
        annualRate pdates draw assetId)
      ⟨[], 0, 0⟩).rows

/-- The principal rule the scheduler actually applies, as a function of the
period date and the post-drawdown balance of that period (`bal`
is `beginning_balance + drawdowns`).  This is the corrected form of the
spec's "Principal (sculpting)" rule: principal is recomputed per period
from the period's cash flow (or the straight-line fallback), never read
from the sizing result's annual principal. -/
def principalRuleCore (debt_amount : ℚ) (acf : ℤ → Option ℚ)
    (bd : ℤ → Option ℚ) (dss : ℤ) (period_rate : ℚ) (total_payments : ℤ)
    (freq : Freq) (pdates : List ℤ) (d : ℤ) (bal : ℚ) : ℚ :=
  if d ≥ dss ∧ bal > 0 then
    match freq with
    | .monthly =>
      if d ∈ pdates then
        match acf d with
        | some cfads =>
          let tgt := (bd (d.fdiv 12)).getD (7 / 5)
          let mds := if tgt > 0 then cfads / tgt else 0
          min (max 0 (mds - bal * period_rate)) bal
        | none =>
          if total_payments > 0 then
            min (debt_amount / (total_payments : ℚ)) bal
          else 0
      else 0
    | .quarterly =>
      if d ∈ pdates then
        if total_payments > 0 then
          min (debt_amount / (total_payments : ℚ) * 3) bal
        else 0
      else 0
  else 0

/-- The principal rule at the payment dates the scheduler generates. -/
def principalRule (debt_amount : ℚ) (assetLife : ℕ) (acf : ℤ → Option ℚ)
    (bd : ℤ → Option ℚ) (dss : ℤ) (period_rate : ℚ) (total_payments : ℤ)
    (freq : Freq) (cod : ℤ) (d : ℤ) (bal : ℚ) : ℚ :=
  principalRuleCore debt_amount acf bd dss period_rate total_payments freq
    (paymentDates dss (cod + 12 * (assetLife : ℤ)) (stepOf freq)) d bal

/-- One merged (asset, period) row entering `aggregate_cashflows`
(backend/calculations/cashflow.py).  The pandas merges of lines 21-26 pair
revenue, opex, capex-split and debt-schedule rows on (asset_id, date) with
missing components filled with 0; the merged numeric fields are taken here
as the input row. -/
structure AggRowIn where
  asset_id : ℕ
  date : ℤ
  revenue : ℚ
  opex : ℚ
  equity_capex : ℚ
  interest : ℚ
  principal : ℚ
  deriving DecidableEq

/-- One consolidated output row of `aggregate_cashflows`. -/
structure AggRow where
  asset_id : ℕ
  date : ℤ
  revenue : ℚ
  opex : ℚ
  equity_capex : ℚ
  interest : ℚ
  principal : ℚ
  cfads : ℚ
  dscr : Option ℚ
  equity_cash_flow : ℚ
  terminal_value : ℚ
  deriving DecidableEq

/-- Asset record as read by the terminal-value loop of `aggregate_cashflows`
(cashflow.py lines 39-43): id, name, `OperatingStartDate` (month index) and
`assetLife` in years. -/
structure AssetInfo where
  id : ℕ
  name : String
  operatingStart : ℤ
  assetLife : ℕ
  deriving DecidableEq

/-- Lines 29-34 of cashflow.py: `cfads = revenue - opex`,
`dscr = cfads / (interest + principal)` when the debt service is nonzero
else `None`, and
`equity_cash_flow = cfads - interest - principal - equity_capex`. -/
def mkBaseRow (r : AggRowIn) : AggRow :=
  let cfads := r.revenue - r.opex
  let ds := r.interest + r.principal
  ⟨r.asset_id, r.date, r.revenue, r.opex, r.equity_capex, r.interest,
    r.principal, cfads, if ds ≠ 0 then some (cfads / ds) else none,
    cfads - r.interest - r.principal - r.equity_capex, 0⟩

/-- `terminal_value_date = (OperatingStartDate + assetLife years) - 1 month`
(cashflow.py lines 46 and 54), in month indices. -/
def tvDateOf (a : AssetInfo) : ℤ :=
  a.operatingStart + 12 * (a.assetLife : ℤ) - 1

/-- `asset_cost_assumptions[asset_name].get('terminalValue', 0.0)`:
`cost name = none` models a name absent from the assumptions dict (the code
then skips the asset), and the 0 default covers a record without the key. -/
def tvAmountOf (cost : String → Option ℚ) (a : AssetInfo) : ℚ :=
  (cost a.name).getD 0

/-- One iteration of the terminal-value loop (cashflow.py lines 39-65):
if the asset has a truthy name found in the cost assumptions, a positive
terminal value, and its terminal date occurs among the table's dates, then
every row of that asset at that date gets the lump sum added to its equity
cash flow (and recorded in `terminal_value`).  The `date` column is never
mutated by the loop, so the date membership test is against the input
table's dates. -/
def applyTV (cost : String → Option ℚ) (dates : List ℤ)
    (acc : List AggRow) (a : AssetInfo) : List AggRow :=
  if a.name ≠ "" ∧ tvAmountOf cost a > 0 ∧ tvDateOf a ∈ dates then
    acc.map (fun r =>
      if r.asset_id = a.id ∧ r.date = tvDateOf a then
        { r with terminal_value := tvAmountOf cost a,
                 equity_cash_flow := r.equity_cash_flow + tvAmountOf cost a }
      else r)
  else acc

/-- `aggregate_cashflows` (cashflow.py lines 6-67) from the merged rows on:
compute the cash-flow lines per row, then, when terminal value is enabled
(config `ENABLE_TERMINAL_VALUE`, `true` in config.py), run the per-asset
terminal-value loop. -/
def aggregate_cashflows (rows : List AggRowIn) (assets : List AssetInfo)
    (cost : String → Option ℚ) (enableTV : Bool) : List AggRow :=
  let base := rows.map mkBaseRow
  if enableTV then
    assets.foldl (applyTV cost (rows.map AggRowIn.date)) base
  else base

/-- The total terminal value the loop adds to the row keyed (aid, d): the
sum of the terminal values of the assets in `assets` that target that row
(matching id and terminal date, truthy name, positive terminal value,
terminal date present among the table's dates).  When asset ids are
distinct this sum has at most one addend. -/
def terminalFor (assets : List AssetInfo) (cost : String → Option ℚ)
    (dates : List ℤ) (aid : ℕ) (d : ℤ) : ℚ :=
  ((assets.filter (fun a =>
      decide (a.id = aid ∧ tvDateOf a = d ∧ a.name ≠ "" ∧
        tvAmountOf cost a > 0 ∧ tvDateOf a ∈ dates))).map
    (tvAmountOf cost)).sum

/-- Asset record as read by `iterate_debt_sizing` / `calculate_debt_schedule`
(debt.py): id, name (`asset.get('name', ...)`), `assetStartDate` (month
index, the COD) and `assetLife` in years. -/
structure Asset where
  id : ℕ
  name : String
  assetStartDate : ℤ
  assetLife : ℕ
  deriving DecidableEq

/-- The per-asset debt assumptions read with `.get` defaults in debt.py
lines 238-244 and 497-500.  The Python dict lookups with their individual
defaults are modelled by the caller supplying a full record. -/
structure DebtAssump where
  capex : ℚ
  maxGearing : ℚ
  interestRate : ℚ
  tenorYears : ℕ
  targetDSCRContract : ℚ
  targetDSCRMerchant : ℚ
  debtStructure : String
  deriving DecidableEq

/-- One row of the preliminary cash-flow DataFrame handed to
`calculate_debt_schedule` (revenue components, opex, and the `cfads`
column the caller in main.py precomputes as revenue - opex). -/
structure CashRow where
  asset_id : ℕ
  date : ℤ
  revenue : ℚ
  opex : ℚ
  cfads : ℚ
  contractedGreenRevenue : ℚ
  contractedEnergyRevenue : ℚ
  merchantGreenRevenue : ℚ
  merchantEnergyRevenue : ℚ
  deriving DecidableEq

/-- One row of the capex schedule before the debt/equity split. -/
structure CapexEntry where
  asset_id : ℕ
  date : ℤ
  capex : ℚ
  deriving DecidableEq

/-- One row of the updated capex schedule with the realized split. -/
structure CapexSplitRow where
  asset_id : ℕ
  date : ℤ
  capex : ℚ
  debt_capex : ℚ
  equity_capex : ℚ
  deriving DecidableEq

/-- `calculate_blended_dscr` (debt.py lines 9-30). -/
def calculate_blended_dscr (cr mr tdc tdm : ℚ) : ℚ :=
  if cr + mr = 0 then tdm
  else cr / (cr + mr) * tdc + mr / (cr + mr) * tdm

/-- `pd.date_range(start, end, freq='MS')` over month-start-aligned bounds:
the month indices from `s` to `e` inclusive. -/
def dateRangeM (s e : ℤ) : List ℤ :=
  (List.range (e - s + 1).toNat).map (fun k => s + (k : ℤ))

/-- The debt-service start date (debt.py lines 253-267 and 510-523): under
the `full_period` grace policy, monthly service starts one month after COD
and quarterly service at the next calendar-quarter start strictly after the
COD's quarter months; otherwise service starts at COD.  Month indices are
12 * year + month0 with month0 = 0 for January. -/
def graceDss (grace : String) (freq : Freq) (cod : ℤ) : ℤ :=
  if grace = "full_period" then
    match freq with
    | .monthly => cod + 1
    | .quarterly =>
      let y := cod.fdiv 12
      let m := cod.emod 12
      if m ≤ 2 then 12 * y + 3
      else if m ≤ 5 then 12 * y + 6
      else if m ≤ 8 then 12 * y + 9
      else 12 * (y + 1)
  else cod

/-- Insert a year into an ascending duplicate-free list (used to model the
ascending group keys of `groupby('year')`). -/
def insertYear (y : ℤ) : List ℤ → List ℤ
  | [] => [y]
  | x :: xs =>
    if y < x then y :: x :: xs
    else if y = x then x :: xs
    else x :: insertYear y xs

/-- The distinct calendar years of the asset's rows in ascending order
(`groupby` sorts its keys). -/
def yearsSorted (rows : List CashRow) : List ℤ :=
  rows.foldr (fun r acc => insertYear (r.date.fdiv 12) acc) []

/-- One annual bucket of `prepare_annual_cash_flows` (debt.py lines
191-226): per calendar year, the sums of monthly CFADS (recomputed there as
revenue - opex) and of the four revenue components. -/
structure AnnualBucket where
  year : ℤ
  cfads : ℚ
  contracted : ℚ
  merchant : ℚ

/-- `prepare_annual_cash_flows` grouping (debt.py lines 210-226), assuming
one row per (asset, date) so the inner merge of the revenue and opex views
pairs each row with itself.  The contracted/merchant sums are already
combined (green + energy) as `iterate_debt_sizing` lines 293-295 use them. -/
def annualData (rows : List CashRow) : List AnnualBucket :=
  (yearsSorted rows).map (fun y =>
    let yr := rows.filter (fun r => decide (r.date.fdiv 12 = y))
    ⟨y, (yr.map (fun r => r.revenue - r.opex)).sum,
      (yr.map (fun r => r.contractedGreenRevenue + r.contractedEnergyRevenue)).sum,
      (yr.map (fun r => r.merchantGreenRevenue + r.merchantEnergyRevenue)).sum⟩)

/-- The legacy parameter bundle `iterate_debt_sizing` returns alongside the
optimal debt (debt.py lines 231-317); `none` for the whole bundle models
the early `return 0, None, None, None, None, None, None, None, None` taken
when `capex == 0` (lines 250-251). -/
structure SizingParams where
  dss : ℤ
  period_rate : ℚ
  total_payments : ℤ
  blended : ℤ → Option ℚ
  debt_structure : String
  date_range : List ℤ
  cod : ℤ
  interest_rate : ℚ

/-- `iterate_debt_sizing` (debt.py lines 228-317).  The blended DSCR series
is keyed by calendar year; in the empty-cash-flow fallback the code builds
`pd.Series([target_dscr_merchant])`, whose default index is 0. -/
def iterate_debt_sizing (asset : Asset) (assump : DebtAssump)
    (cashRows : List CashRow) (startM endM : ℤ) (freq : Freq)
    (grace : String) : ℚ × Option SizingParams :=
  let dr := dateRangeM startM endM
  let cod := asset.assetStartDate
  if assump.capex = 0 then (0, none)
  else
    let dss := graceDss grace freq cod
    let pr := match freq with
      | .monthly => assump.interestRate / 12
      | .quarterly => assump.interestRate / 4
    let tp : ℤ := match freq with
      | .monthly => 12 * (assump.tenorYears : ℤ)
      | .quarterly => 4 * (assump.tenorYears : ℤ)
    let arows := cashRows.filter (fun r => decide (r.asset_id = asset.id))
    if arows = [] then
      (0, some ⟨dss, pr, tp,
        (fun y => if y = 0 then some assump.targetDSCRMerchant else none),
        assump.debtStructure, dr, cod, assump.interestRate⟩)
    else
      let ann := annualData arows
      let cfs := ann.map AnnualBucket.cfads
      let tdsL := ann.map (fun b =>
        calculate_blended_dscr b.contracted b.merchant
          assump.targetDSCRContract assump.targetDSCRMerchant)
      let sol := solve_maximum_debt assump.capex cfs tdsL assump.maxGearing
        assump.interestRate assump.tenorYears
      let blended := fun y =>
        ((ann.map (fun b =>
            (b.year, calculate_blended_dscr b.contracted b.merchant
              assump.targetDSCRContract assump.targetDSCRMerchant))).find?
          (fun p => decide (p.1 = y))).map Prod.snd
      (debtOf sol, some ⟨dss, pr, tp, blended, assump.debtStructure, dr, cod,
        assump.interestRate⟩)

/-- Message for the ValueError pandas raises when `generate_debt_schedule`
builds its DataFrame from all-scalar values (date_range None), which happens
on the dscr path when sizing early-returned with capex 0. -/
def allScalarErr : String :=
  "If using all scalar values, you must pass an index"

/-- The asset's capex rows as (date, capex) pairs for the scheduler. -/
def assetCapexPairs (capexRows : List CapexEntry) (aid : ℕ) : List (ℤ × ℚ) :=
  (capexRows.filter (fun c => decide (c.asset_id = aid))).map
    (fun c => (c.date, c.capex))

/-- `asset_cash_flow` filtered to the asset and dates from COD onward and
indexed by date (debt.py lines 480-486 and 538-544), read as a date ->
cfads lookup. -/
def assetCashLookup (cashRows : List CashRow) (aid : ℕ) (cod : ℤ) :
    ℤ → Option ℚ :=
  fun d => ((cashRows.filter (fun r =>
      decide (r.asset_id = aid ∧ cod ≤ r.date))).find?
    (fun r => decide (r.date = d))).map CashRow.cfads

/-- The per-asset branch of `calculate_debt_schedule` (debt.py lines
457-558): dscr sizing + scheduling, annuity sizing + scheduling, or the
unknown-method default of debt 0 with an empty schedule.  Returns the
asset's schedule rows and its optimal debt. -/
def processAsset (debt_assumptions : String → DebtAssump)
    (capexRows : List CapexEntry) (cashRows : List CashRow) (startM endM : ℤ)
    (freq : Freq) (grace : String) (method : String) (asset : Asset) :
    Except String (List DebtEntry × ℚ) :=
  if method = "dscr" then
    let assump := debt_assumptions asset.name
    let sized := iterate_debt_sizing asset assump cashRows startM endM freq grace
    match sized.2 with
    | none => .error allScalarErr
    | some p =>
      .ok (generate_debt_schedule sized.1 asset.assetLife
        (assetCapexPairs capexRows asset.id)
        (assetCashLookup cashRows asset.id p.cod) p.blended p.dss
        p.period_rate p.total_payments freq p.date_range p.cod
        p.interest_rate asset.id, sized.1)
  else if method = "annuity" then
    let assump := debt_assumptions asset.name
    let odebt := assump.capex * assump.maxGearing
    if odebt > 0 then
      let cod := asset.assetStartDate
      let dr := dateRangeM startM endM
      let dss := graceDss grace freq cod
      let pr := match freq with
        | .monthly => assump.interestRate / 12
        | .quarterly => assump.interestRate / 4
      let tp : ℤ := match freq with
        | .monthly => 12 * (assump.tenorYears : ℤ)
        | .quarterly => 4 * (assump.tenorYears : ℤ)
      let blended := fun y =>
        if y = 0 then some assump.targetDSCRContract else (none : Option ℚ)
      .ok (generate_debt_schedule odebt asset.assetLife
        (assetCapexPairs capexRows asset.id)
        (assetCashLookup cashRows asset.id cod) blended dss pr tp freq dr cod
        assump.interestRate asset.id, odebt)
    else .ok ([], 0)
  else .ok ([], 0)

/-- The capex-update block of `calculate_debt_schedule` (debt.py lines
560-578) and per-asset accumulation: when the asset's total capex is
positive, its capex rows get the realized debt/equity split and a nonempty
schedule is collected; otherwise the asset contributes nothing. -/
def assetContribution (capexRows : List CapexEntry) (asset : Asset)
    (sched : List DebtEntry) (odebt : ℚ) :
    List DebtEntry × List CapexSplitRow :=
  let acapex := capexRows.filter (fun c => decide (c.asset_id = asset.id))
  let total := (acapex.map CapexEntry.capex).sum
  if total > 0 then
    let rows :=
      if odebt > 0 then
        let g := odebt / total
        acapex.map (fun c =>
          ⟨c.asset_id, c.date, c.capex, c.capex * g, c.capex * (1 - g)⟩)
      else
        acapex.map (fun c => ⟨c.asset_id, c.date, c.capex, 0, c.capex⟩)
    (if sched = [] then [] else sched, rows)
  else ([], [])

/-- The per-asset loop of `calculate_debt_schedule`, in list order. -/
def calcAssets (debt_assumptions : String → DebtAssump)
    (capexRows : List CapexEntry) (cashRows : List CashRow) (startM endM : ℤ)
    (freq : Freq) (grace : String) (method : String) :
    List Asset → Except String (List DebtEntry × List CapexSplitRow)
  | [] => .ok ([], [])
  | a :: rest => do
    let (sched, odebt) ← processAsset debt_assumptions capexRows cashRows
      startM endM freq grace method a
    let contrib := assetContribution capexRows a sched odebt
    let (restSched, restCapex) ← calcAssets debt_assumptions capexRows
      cashRows startM endM freq grace method rest
    .ok (contrib.1 ++ restSched, contrib.2 ++ restCapex)

/-- `calculate_debt_schedule` (debt.py lines 439-597).  When no asset
produced updated capex rows the original capex schedule is returned with a
zero-debt, all-equity split (lines 586-592). -/
def calculate_debt_schedule (assets : List Asset)
    (debt_assumptions : String → DebtAssump) (capexRows : List CapexEntry)
    (cashRows : List CashRow) (startM endM : ℤ) (freq : Freq)
    (grace : String) (method : String) :
    Except String (List DebtEntry × List CapexSplitRow) := do
  let (ds, uc) ← calcAssets debt_assumptions capexRows cashRows startM endM
    freq grace method assets
  .ok (ds, if uc = [] then
    capexRows.map (fun c => ⟨c.asset_id, c.date, c.capex, 0, c.capex⟩)
  else uc)

/-- The updated capex schedule `calculate_debt_schedule` produces when every
asset is sized to zero debt: assets with positive total capex keep their
rows with a 100% equity split; if no asset has positive capex the whole
input schedule is returned all-equity. -/
def zeroDebtCapex (assets : List Asset) (capexRows : List CapexEntry) :
    List CapexSplitRow :=
  let upd := (assets.map (fun a =>
    let acapex := capexRows.filter (fun c => decide (c.asset_id = a.id))
    if (acapex.map CapexEntry.capex).sum > 0 then
      acapex.map (fun c => (⟨c.asset_id, c.date, c.capex, 0, c.capex⟩ : CapexSplitRow))
    else [])).flatten
  if upd = [] then
    capexRows.map (fun c => ⟨c.asset_id, c.date, c.capex, 0, c.capex⟩)
  else upd

/-- The ValueError message of `xnpv` (backend/core/equity_irr.py line 22). -/
def lenMismatchErr : String :=
  "Cash flows and dates must have the same length"

/-- The present value of one flow (equity_irr.py lines 34-45): days from
the reference date divided by 365.25 gives the year fraction, the discount
factor is `(1 + rate) ** years_diff`, and at `rate == -1` a flow strictly
after the reference is worth 0 and any other flow its face value.  Dates
are integer day numbers; flows are exact rationals valued in ℝ. -/
noncomputable def pvOf (rate : ℝ) (ref : ℤ) (cf : ℚ) (d : ℤ) : ℝ :=
  let yd : ℝ := ((d - ref : ℤ) : ℝ) / 365.25
  if rate = -1 then (if yd > 0 then 0 else (cf : ℝ))
  else (cf : ℝ) / (1 + rate) ^ yd

/-- The accumulation loop of `xnpv` (equity_irr.py lines 30-47): reference
date is `dates[0]`, the first date of the list, and the present values are
summed into `npv` starting from 0.0. -/
noncomputable def xnpvCore (rate : ℝ) (cfs : List ℚ) (dates : List ℤ) : ℝ :=
  let ref := dates.headD 0
  (cfs.zip dates).foldl (fun npv p => npv + pvOf rate ref p.1 p.2) 0

/-- `xnpv` (equity_irr.py lines 9-47): raises ValueError on a length
mismatch, returns 0.0 on empty input, else the summed present values. -/
noncomputable def xnpv (rate : ℝ) (cfs : List ℚ) (dates : List ℤ) :
    Except String ℝ :=
  if cfs.length ≠ dates.length then .error lenMismatchErr
  else if cfs.length = 0 then .ok 0
  else .ok (xnpvCore rate cfs dates)

/-- The spec's reading of `xnpv`: discount every flow to the EARLIEST date
among the given dates (spec section 4.5).  Modelled from the spec for
comparison with the source's first-date reference. -/
noncomputable def xnpvSpec (rate : ℝ) (cfs : List ℚ) (dates : List ℤ) : ℝ :=
  let ref := match dates with
    | [] => 0
    | d :: ds => ds.foldl min d
  ((cfs.zip dates).map (fun p => pvOf rate ref p.1 p.2)).sum

/-- The sign tag of equity_irr.py line 86 (`1 if cf > 0 else -1 if cf < 0
else 0`). -/
def signTag (cf : ℚ) : ℤ :=
  if cf > 0 then 1 else if cf < 0 then -1 else 0

/-- The nonzero (flow, date) pairs kept by equity_irr.py line 76. -/
def nonzeroPairs (cfs : List ℚ) (dates : List ℤ) : List (ℚ × ℤ) :=
  (cfs.zip dates).filter (fun p => decide (p.1 ≠ 0))

/-- `npv_function` of equity_irr.py lines 91-92 on the cleaned flows: the
lengths are equal and the lists nonempty there, so `xnpv` reduces to its
accumulation loop. -/
noncomputable def xirrNpvFun (cfs : List ℚ) (dates : List ℤ) : ℝ → ℝ :=
  fun rate => xnpvCore rate ((nonzeroPairs cfs dates).map Prod.fst)
    ((nonzeroPairs cfs dates).map Prod.snd)

/-- The candidate rate delivered by the abstracted root finder (scipy
`fsolve`, external code) seeded from the initial guess. -/
noncomputable def xirrCandidate (solver : (ℝ → ℝ) → ℝ → ℝ) (cfs : List ℚ)
    (dates : List ℤ) (guess : ℝ) : ℝ :=
  solver (xirrNpvFun cfs dates) guess

/-- `xirr` (equity_irr.py lines 49-109).  The scipy `fsolve` call is
external code, abstracted as the `solver` argument mapping the NPV function
and the initial guess to a candidate rate; the surrounding validation and
acceptance logic is the source's: empty inputs, mismatched lengths, fewer
than two flows, fewer than two nonzero flows, or a single sign class give
NaN (modelled as `none`); a candidate is accepted only when its residual
NPV is below the tolerance and it lies strictly inside (-1, 100); the
`except` handler likewise yields NaN, never a propagated exception
(the embedding is total).  `len(set(signs)) <= 1` is `all signs equal`. -/
noncomputable def xirr (solver : (ℝ → ℝ) → ℝ → ℝ) (cfs : List ℚ)
    (dates : List ℤ) (guess tol : ℝ) : Option ℝ :=
  if cfs = [] ∨ dates = [] then none
  else if cfs.length ≠ dates.length then none
  else if cfs.length < 2 then none
  else if (nonzeroPairs cfs dates).length < 2 then none
  else
    let signs := (nonzeroPairs cfs dates).map (fun p => signTag p.1)
    if signs.all (fun s => decide (s = signs.headD 0)) then none
    else
      if |xirrNpvFun cfs dates (xirrCandidate solver cfs dates guess)| < tol ∧
          -1 < xirrCandidate solver cfs dates guess ∧
          xirrCandidate solver cfs dates guess < 100 then
        some (xirrCandidate solver cfs dates guess)
      else none

/-- Claim C3: the single-period sculpting example.  With debt 1,000,000,
a one-year tenor, cash flow 1,200,000, 5% interest and target DSCR 1.0,
the annual schedule has interest 50,000, principal 1,000,000, debt service
1,050,000, DSCR 1,200,000/1,050,000, ending balance 0, and is fully
repaid. -/
theorem annualSchedule_single_period_example :
    calculate_annual_debt_schedule 1000000 [1200000] (1 / 20) 1 [1] =
      ([⟨50000, 1000000, 1050000, some (1200000 / 1050000)⟩], 0, true) := by
  norm_num [calculate_annual_debt_schedule, sculptPairs, targetAt, annualRowStep,
    stepBalance, sculptPrincipal, maxDS, List.range_succ]

/-- Claim C6: calling the debt sizer with capex = 0 returns debt 0 with the
degenerate no-schedule result and no exception, for any other arguments;
`iterate_debt_sizing` likewise short-circuits to (0, none). -/
theorem solveMaximumDebt_zero_capex (cfs tds : List ℚ) (mg r : ℚ)
    (tenor : ℕ) (asset : Asset) (maxG ir : ℚ) (tn : ℕ) (tdc tdm : ℚ)
    (dstr : String) (cashRows : List CashRow) (s e : ℤ) (freq : Freq)
    (grace : String) :
    solve_maximum_debt 0 cfs tds mg r tenor = SolveResult.degenerate ∧
    debtOf (solve_maximum_debt 0 cfs tds mg r tenor) = 0 ∧
    iterate_debt_sizing asset ⟨0, maxG, ir, tn, tdc, tdm, dstr⟩ cashRows
        s e freq grace = (0, none) := by
  refine ⟨?_, ?_, ?_⟩ <;> simp [solve_maximum_debt, iterate_debt_sizing, debtOf]

/-- Claim C10: on mismatched lengths `xnpv` raises ValueError while `xirr`
returns NaN without raising: the two entry points disagree on the same
malformed input. -/
theorem xnpv_xirr_length_mismatch (r : ℝ) (solver : (ℝ → ℝ) → ℝ → ℝ)
    (cfs : List ℚ) (dates : List ℤ) (guess tol : ℝ)
    (h : cfs.length ≠ dates.length) :
    xnpv r cfs dates = Except.error lenMismatchErr ∧
    xirr solver cfs dates guess tol = none := by
  constructor
  · simp [xnpv, h]
  · unfold xirr
    rcases eq_or_ne cfs [] with hc | hc
    · simp [hc]
    · rcases eq_or_ne dates [] with hd | hd
      · simp [hd]
      · simp [hc, hd, h]

/-- Witness for C10 at the concrete mismatched input ([1], []). -/
theorem xnpv_xirr_length_mismatch_witness :
    xnpv 0 [1] [] = Except.error lenMismatchErr ∧
    xirr (fun _ g => g) [1] [] 0 1 = none :=
  xnpv_xirr_length_mismatch 0 (fun _ g => g) [1] [] 0 1 (by decide)

/-- Signs of all-positive (or all-negative) nonzero flows are a single
class, so the `len(set(signs)) <= 1` guard of `xirr` fires. -/
lemma signTag_all_same {pairs : List (ℚ × ℤ)} (hne : pairs ≠ [])
    (h : (∀ p ∈ pairs, 0 < p.1) ∨ (∀ p ∈ pairs, p.1 < 0)) :
    (pairs.map (fun p => signTag p.1)).all
      (fun s => decide (s = (pairs.map (fun p => signTag p.1)).headD 0)) = true := by
  rcases pairs with _ | ⟨q, qs⟩
  · exact absurd rfl hne
  · have key : ∀ p ∈ q :: qs, signTag p.1 = signTag q.1 := by
      rcases h with h | h <;> intro p hp
      · simp [signTag, h p hp, h q (List.mem_cons_self _ _)]
      · simp [signTag, (h p hp).not_lt, h p hp,
          (h q (List.mem_cons_self _ _)).not_lt, h q (List.mem_cons_self _ _)]
    simp only [List.all_eq_true]
    intro s hs
    obtain ⟨p, hp, rfl⟩ := List.mem_map.mp hs
    simp [key p hp, List.map_cons, List.headD_cons]

/-- Claim C8: `xirr` never raises and returns undefined (`none`) whenever
the nonzero flows number fewer than two, or are all of one sign, or the
candidate rate from the root finder fails the residual-tolerance and
(-100%, +10000%) bounds check; in no such case is a numeric rate (in
particular 0) returned, and no exception propagates (the embedding is
total with an Option result). -/
theorem xirr_undefined_cases (solver : (ℝ → ℝ) → ℝ → ℝ) (cfs : List ℚ)
    (dates : List ℤ) (guess tol : ℝ) :
    ((nonzeroPairs cfs dates).length < 2 →
      xirr solver cfs dates guess tol = none) ∧
    (((∀ p ∈ nonzeroPairs cfs dates, 0 < p.1) ∨
      (∀ p ∈ nonzeroPairs cfs dates, p.1 < 0)) →
      xirr solver cfs dates guess tol = none) ∧
    (¬ (|xirrNpvFun cfs dates (xirrCandidate solver cfs dates guess)| < tol ∧
        -1 < xirrCandidate solver cfs dates guess ∧
        xirrCandidate solver cfs dates guess < 100) →
      xirr solver cfs dates guess tol = none) := by
  refine ⟨?_, ?_, ?_⟩
  · intro h
    simp only [xirr]
    split_ifs with h1 h2 h3 h4 h5 h6 <;> first | rfl | exact absurd h h4
  · intro h
    simp only [xirr]
    split_ifs with h1 h2 h3 h4 h5 h6 <;> try rfl
    exfalso
    have hne : nonzeroPairs cfs dates ≠ [] := by
      intro hempty
      rw [hempty] at h4
      exact h4 (by simp)
    exact absurd (signTag_all_same hne h) (by simpa using h5)
  · intro h
    simp only [xirr]
    split_ifs with h1 h2 h3 h4 h5 h6 <;> first | rfl | exact absurd h6 h

/-- Witness for C8: an all-positive two-flow series gives `none`. -/
theorem xirr_undefined_cases_witness :
    xirr (fun _ g => g) [1, 2] [0, 100] (1 / 10) (1 / 1000000) = none := by
  refine (xirr_undefined_cases (fun _ g => g) [1, 2] [0, 100]
    (1 / 10) (1 / 1000000)).2.1 (Or.inl ?_)
  intro p hp
  have hnz : nonzeroPairs [1, 2] [0, 100] = [(1, 0), (2, 100)] := by
    norm_num [nonzeroPairs, List.filter]
  rw [hnz] at hp
  simp only [List.mem_cons, List.mem_singleton, List.not_mem_nil, or_false] at hp
  rcases hp with rfl | rfl <;> norm_num

/-- The `npv += pv` accumulation loop equals the sum of the mapped list. -/
lemma foldl_add_pv (f : ℚ × ℤ → ℝ) :
    ∀ (l : List (ℚ × ℤ)) (a : ℝ),
      l.foldl (fun acc p => acc + f p) a = a + (l.map f).sum := by
  intro l
  induction l with
  | nil => intro a; simp
  | cons p ps ih => intro a; simp [ih]; ring

/-- `xnpvCore` computes the sum of the per-flow present values discounted
to the first date of the list. -/
lemma xnpvCore_eq_sum (rate : ℝ) (cfs : List ℚ) (dates : List ℤ) :
    xnpvCore rate cfs dates =
      ((cfs.zip dates).map
        (fun p => pvOf rate (dates.headD 0) p.1 p.2)).sum := by
  simp only [xnpvCore]
  rw [foldl_add_pv]
  simp

/-- At rate -1 a flow is worth its face value iff it is not dated strictly
after the reference date (equity_irr.py line 41). -/
lemma pv_neg_one (ref : ℤ) (cf : ℚ) (d : ℤ) :
    pvOf (-1) ref cf d = if d ≤ ref then (cf : ℝ) else 0 := by
  simp only [pvOf]
  by_cases h : d ≤ ref
  · have hnum : ((d - ref : ℤ) : ℝ) ≤ 0 := by exact_mod_cast sub_nonpos.mpr h
    have h1 : ¬ (((d - ref : ℤ) : ℝ) / 365.25 > 0) :=
      not_lt.mpr (div_nonpos_iff.mpr (Or.inr ⟨hnum, by norm_num⟩))
    simp only [if_true]
    rw [if_neg h1, if_pos h]
  · have hnum : (0 : ℝ) < ((d - ref : ℤ) : ℝ) := by
      exact_mod_cast sub_pos.mpr (lt_of_not_le h)
    have h1 : ((d - ref : ℤ) : ℝ) / 365.25 > 0 := div_pos hnum (by norm_num)
    simp only [if_true]
    rw [if_pos h1, if_neg h]

/-- Summing rate -1 present values keeps exactly the flows dated at or
before the reference. -/
lemma sum_pv_neg_one (ref : ℤ) :
    ∀ (l : List (ℚ × ℤ)),
      (l.map (fun p => pvOf (-1) ref p.1 p.2)).sum =
        ((l.filter (fun p => decide (p.2 ≤ ref))).map
          (fun p => ((p.1 : ℚ) : ℝ))).sum := by
  intro l
  induction l with
  | nil => simp
  | cons p ps ih =>
    rw [List.map_cons, List.sum_cons, pv_neg_one, ih, List.filter_cons]
    by_cases h : p.2 ≤ ref <;> simp [h]

/-- Claim C9 (amended): `xnpv` discounts each flow with the factor
(1+rate)^(days/365.25) to the FIRST date of the list (the earliest only
when dates are passed sorted ascending), and at rate = -1 it values flows
dated after that reference at zero and all other flows (including the
reference-dated ones) at face value, avoiding the division by zero. -/
theorem xnpv_first_date_reference (r : ℝ) (cfs : List ℚ) (dates : List ℤ)
    (hlen : cfs.length = dates.length) (hne : cfs ≠ []) :
    xnpv r cfs dates =
      Except.ok (((cfs.zip dates).map
        (fun p => pvOf r (dates.headD 0) p.1 p.2)).sum) ∧
    xnpv (-1) cfs dates =
      Except.ok ((((cfs.zip dates).filter
        (fun p => decide (p.2 ≤ dates.headD 0))).map
        (fun p => ((p.1 : ℚ) : ℝ))).sum) := by
  have hz : cfs.length ≠ 0 := by simpa [List.length_eq_zero] using hne
  have hcond : ¬ (cfs.length ≠ dates.length) := by simp [hlen]
  constructor
  · unfold xnpv
    rw [if_neg hcond, if_neg hz, xnpvCore_eq_sum]
  · unfold xnpv
    rw [if_neg hcond, if_neg hz, xnpvCore_eq_sum, sum_pv_neg_one]

/-- Witness for C9 at flows [-1000, 1100] on days [0, 1461]. -/
theorem xnpv_first_date_reference_witness :
    xnpv (-1) [-1000, 1100] [0, 1461] =
      Except.ok ((([(-1000, 0), (1100, 1461)] : List (ℚ × ℤ)).map
        (fun p => pvOf (-1) (([0, 1461] : List ℤ).headD 0) p.1 p.2)).sum) ∧
    xnpv (-1) [-1000, 1100] [0, 1461] =
      Except.ok (((([(-1000, 0), (1100, 1461)] : List (ℚ × ℤ)).filter
        (fun p => decide (p.2 ≤ ([0, 1461] : List ℤ).headD 0))).map
        (fun p => ((p.1 : ℚ) : ℝ))).sum) :=
  xnpv_first_date_reference (-1) [-1000, 1100] [0, 1461] (by decide) (by decide)

/-- Counterexample for C9 as stated: with dates passed out of order,
`xnpv` discounts to the first date (day 100), not the earliest (day 0):
at rate -1 the code returns 12 while the spec's earliest-date reading
(`xnpvSpec`, modelled from the spec) yields 7. -/
theorem xnpv_earliest_reference_counterexample :
    xnpv (-1) [5, 7] [100, 0] = Except.ok 12 ∧
    xnpvSpec (-1) [5, 7] [100, 0] = 7 ∧ (12 : ℝ) ≠ 7 := by
  refine ⟨?_, ?_, by norm_num⟩
  · norm_num [xnpv, xnpvCore_eq_sum, pv_neg_one]
  · norm_num [xnpvSpec, pv_neg_one]

/-- The drawdown fold keeps the drawdown column pointwise nonnegative and
the drawn total nonnegative, for nonnegative capex rows. -/
lemma drawFold_nonneg (D g : ℚ) (dates : List ℤ) (hg : 0 < D → 0 ≤ g) :
    ∀ (rows : List (ℤ × ℚ)), (∀ p ∈ rows, 0 ≤ p.2) →
    ∀ (acc : (ℤ → ℚ) × ℚ), (∀ x, 0 ≤ acc.1 x) → 0 ≤ acc.2 →
    (∀ x, 0 ≤ (rows.foldl (drawStep D g dates) acc).1 x) ∧
      0 ≤ (rows.foldl (drawStep D g dates) acc).2 := by
  intro rows
  induction rows with
  | nil => intro _ acc h1 h2; exact ⟨h1, h2⟩
  | cons r rs ih =>
    intro hr acc h1 h2
    simp only [List.foldl_cons]
    have hdd : drawStep D g dates acc r = acc ∨
        (acc.2 < D ∧ drawStep D g dates acc r =
          (fun d => if d = r.1 then min (r.2 * g) (D - acc.2) else acc.1 d,
            acc.2 + min (r.2 * g) (D - acc.2))) := by
      unfold drawStep
      split_ifs with hc
      · exact Or.inr ⟨hc.2, rfl⟩
      · exact Or.inl rfl
    have hrs : ∀ p ∈ rs, 0 ≤ p.2 := fun p hp => hr p (List.mem_cons_of_mem _ hp)
    rcases hdd with heq | ⟨hlt, heq⟩
    · rw [heq]; exact ih hrs acc h1 h2
    · rw [heq]
      have hD : 0 < D := lt_of_le_of_lt h2 hlt
      have hmin : 0 ≤ min (r.2 * g) (D - acc.2) :=
        le_min (mul_nonneg (hr r (List.mem_cons_self _ _)) (hg hD))
          (by linarith)
      refine ih hrs _ ?_ (by simpa using add_nonneg h2 hmin)
      intro x
      dsimp only
      split
      · exact hmin
      · exact h1 x

/-- With nonnegative capex rows every drawdown is nonnegative. -/
lemma drawdownFn_nonneg (D : ℚ) (rows : List (ℤ × ℚ)) (dates : List ℤ)
    (h : ∀ p ∈ rows, 0 ≤ p.2) (d : ℤ) : 0 ≤ drawdownFn D rows dates d := by
  unfold drawdownFn
  split_ifs with ht
  · refine (drawFold_nonneg D (D / ((rows.map Prod.snd).sum)) dates ?_ rows h
      (fun _ => 0, 0) (fun _ => le_refl 0) (le_refl 0)).1 d
    intro hD
    exact le_of_lt (div_pos hD ht)
  · exact le_refl 0

/-- One period of the schedule loop appends exactly one row whose principal
is `principalRuleCore` of the period date and post-drawdown balance, whose
ending balance is that balance minus the principal, and carries the same
ending balance forward. -/
lemma genStep_principal (D : ℚ) (acf bd : ℤ → Option ℚ) (dss : ℤ) (pr : ℚ)
    (tp : ℤ) (freq : Freq) (ar : ℚ) (pdates : List ℤ) (draw : ℤ → ℚ)
    (aid : ℕ) (st : GenState) (d : ℤ) :
    ∃ i q, genStep D acf bd dss pr tp freq ar pdates draw aid st d =
      ⟨st.rows ++ [⟨aid, d, st.balance, draw d, i,
          principalRuleCore D acf bd dss pr tp freq pdates d (st.balance + draw d),
          st.balance + draw d -
            principalRuleCore D acf bd dss pr tp freq pdates d (st.balance + draw d)⟩],
        st.balance + draw d -
          principalRuleCore D acf bd dss pr tp freq pdates d (st.balance + draw d), q⟩ := by
  by_cases hc : d ≥ dss ∧ st.balance + draw d > 0
  · cases freq with
    | monthly =>
      by_cases hp : d ∈ pdates
      · cases hacf : acf d with
        | some cfads =>
          refine ⟨(st.balance + draw d) * pr, st.qacc, ?_⟩
          simp only [genStep, principalRuleCore, hacf, if_pos hc, if_pos hp]
        | none =>
          refine ⟨(st.balance + draw d) * pr, st.qacc, ?_⟩
          simp only [genStep, principalRuleCore, hacf, if_pos hc, if_pos hp]
      · refine ⟨0, st.qacc, ?_⟩
        simp only [genStep, principalRuleCore, if_pos hc, if_neg hp]
        simp
    | quarterly =>
      by_cases hp : d ∈ pdates
      · refine ⟨st.qacc + (st.balance + draw d) * (ar / 12), 0, ?_⟩
        simp only [genStep, principalRuleCore, if_pos hc, if_pos hp]
      · refine ⟨0, st.qacc + (st.balance + draw d) * (ar / 12), ?_⟩
        simp only [genStep, principalRuleCore, if_pos hc, if_neg hp]
        simp
  · refine ⟨0, st.qacc, ?_⟩
    simp only [genStep, principalRuleCore, if_neg hc]
    simp

/-- The applied principal is either zero or capped at the balance. -/
lemma principalRuleCore_cases (D : ℚ) (acf bd : ℤ → Option ℚ) (dss : ℤ)
    (pr : ℚ) (tp : ℤ) (freq : Freq) (pdates : List ℤ) (d : ℤ) (bal : ℚ) :
    principalRuleCore D acf bd dss pr tp freq pdates d bal = 0 ∨
      principalRuleCore D acf bd dss pr tp freq pdates d bal ≤ bal := by
  unfold principalRuleCore
  by_cases hc : d ≥ dss ∧ bal > 0
  · cases freq with
    | monthly =>
      by_cases hp : d ∈ pdates
      · cases hacf : acf d with
        | some cfads =>
          simp only [if_pos hc, hacf, if_pos hp]
          exact Or.inr (min_le_right _ _)
        | none =>
          simp only [if_pos hc, hacf, if_pos hp]
          split_ifs with htp
          · exact Or.inr (min_le_right _ _)
          · exact Or.inl (by trivial)
      · simp only [if_pos hc, if_neg hp]
        exact Or.inl (by trivial)
    | quarterly =>
      by_cases hp : d ∈ pdates
      · simp only [if_pos hc, if_pos hp]
        split_ifs with htp
        · exact Or.inr (min_le_right _ _)
        · exact Or.inl rfl
      · simp only [if_pos hc, if_neg hp]
        exact Or.inl (by trivial)
  · simp only [if_neg hc]
    exact Or.inl (by trivial)

/-- The schedule fold preserves the amortization invariant and the
nonnegativity of the running balance, for nonnegative drawdowns. -/
lemma genFold_inv (D : ℚ) (acf bd : ℤ → Option ℚ) (dss : ℤ) (pr : ℚ)
    (tp : ℤ) (freq : Freq) (ar : ℚ) (pdates : List ℤ) (draw : ℤ → ℚ)
    (aid : ℕ) (hdraw : ∀ x, 0 ≤ draw x) :
    ∀ (dr : List ℤ) (st : GenState),
    (∀ e ∈ st.rows,
      e.ending_balance = e.beginning_balance + e.drawdowns - e.principal ∧
      e.principal ≤ e.beginning_balance + e.drawdowns ∧ 0 ≤ e.ending_balance) →
    0 ≤ st.balance →
    (∀ e ∈ (dr.foldl (genStep D acf bd dss pr tp freq ar pdates draw aid) st).rows,
      e.ending_balance = e.beginning_balance + e.drawdowns - e.principal ∧
      e.principal ≤ e.beginning_balance + e.drawdowns ∧ 0 ≤ e.ending_balance) ∧
    0 ≤ (dr.foldl (genStep D acf bd dss pr tp freq ar pdates draw aid) st).balance := by
  intro dr
  induction dr with
  | nil => intro st h1 h2; exact ⟨h1, h2⟩
  | cons d ds ih =>
    intro st h1 h2
    simp only [List.foldl_cons]
    obtain ⟨i, q, heq⟩ := genStep_principal D acf bd dss pr tp freq ar pdates draw aid st d
    have hple : principalRuleCore D acf bd dss pr tp freq pdates d
        (st.balance + draw d) ≤ st.balance + draw d := by
      rcases principalRuleCore_cases D acf bd dss pr tp freq pdates d
          (st.balance + draw d) with h | h
      · rw [h]; exact add_nonneg h2 (hdraw d)
      · exact h
    rw [heq]
    apply ih
    · intro e he
      rcases List.mem_append.mp he with hold | hnew
      · exact h1 e hold
      · rcases List.mem_singleton.mp hnew with rfl
        refine ⟨by ring, hple, by simpa using hple⟩
    · simpa using hple

/-- Claim C1 (amended): provided every capex entry is nonnegative, every
row of the generated schedule satisfies ending = beginning + drawdowns -
principal exactly, principal never exceeds beginning + drawdowns, and the
ending balance is never negative (for any debt amount, dates, lookup
series and frequency). -/
theorem debtSchedule_amortization_invariant (D : ℚ) (life : ℕ)
    (capexRows : List (ℤ × ℚ)) (acf bd : ℤ → Option ℚ) (dss : ℤ) (pr : ℚ)
    (tp : ℤ) (freq : Freq) (dr : List ℤ) (cod : ℤ) (ar : ℚ) (aid : ℕ)
    (hcapex : ∀ p ∈ capexRows, 0 ≤ p.2) :
    ∀ e ∈ generate_debt_schedule D life capexRows acf bd dss pr tp freq dr cod ar aid,
      e.ending_balance = e.beginning_balance + e.drawdowns - e.principal ∧
      e.principal ≤ e.beginning_balance + e.drawdowns ∧ 0 ≤ e.ending_balance := by
  intro e he
  unfold generate_debt_schedule at he
  split_ifs at he with hD
  · obtain ⟨d, _, rfl⟩ := List.mem_map.mp he
    norm_num
  · exact (genFold_inv D acf bd dss pr tp freq ar
      (paymentDates dss (cod + 12 * (life : ℤ)) (stepOf freq))
      (drawdownFn D capexRows dr) aid
      (drawdownFn_nonneg D capexRows dr hcapex) dr ⟨[], 0, 0⟩
      (by intro x hx; exact absurd hx (List.not_mem_nil x)) (le_refl 0)).1 e he

/-- Witness for C1 on a concrete one-period schedule. -/
theorem debtSchedule_amortization_invariant_witness :
    (⟨1, 0, 0, 1000000, 12500 / 3, 287500 / 3, 2712500 / 3⟩ :
        DebtEntry).ending_balance =
      (⟨1, 0, 0, 1000000, 12500 / 3, 287500 / 3, 2712500 / 3⟩ :
        DebtEntry).beginning_balance +
      (⟨1, 0, 0, 1000000, 12500 / 3, 287500 / 3, 2712500 / 3⟩ :
        DebtEntry).drawdowns -
      (⟨1, 0, 0, 1000000, 12500 / 3, 287500 / 3, 2712500 / 3⟩ :
        DebtEntry).principal ∧
    (⟨1, 0, 0, 1000000, 12500 / 3, 287500 / 3, 2712500 / 3⟩ :
        DebtEntry).principal ≤
      (⟨1, 0, 0, 1000000, 12500 / 3, 287500 / 3, 2712500 / 3⟩ :
        DebtEntry).beginning_balance +
      (⟨1, 0, 0, 1000000, 12500 / 3, 287500 / 3, 2712500 / 3⟩ :
        DebtEntry).drawdowns ∧
    (0 : ℚ) ≤ (⟨1, 0, 0, 1000000, 12500 / 3, 287500 / 3, 2712500 / 3⟩ :
        DebtEntry).ending_balance := by
  have hgen : generate_debt_schedule 1000000 1 [(0, 1000000)]
      (fun d => if d = 0 then some 100000 else none)
      (fun y => if y = 0 then some 1 else none) 0 (1 / 240) 12 Freq.monthly
      [0] 0 (1 / 20) 1 =
      [⟨1, 0, 0, 1000000, 12500 / 3, 287500 / 3, 2712500 / 3⟩] := by
    have hpay : ∃ a : ℕ, a < 13 ∧ (0 : ℤ) = ↑a := ⟨0, by norm_num, rfl⟩
    norm_num [generate_debt_schedule, genStep, drawdownFn, drawStep,
      paymentDates, stepOf, List.foldl, hpay]
  exact debtSchedule_amortization_invariant 1000000 1 [(0, 1000000)]
    (fun d => if d = 0 then some 100000 else none)
    (fun y => if y = 0 then some 1 else none) 0 (1 / 240) 12 Freq.monthly
    [0] 0 (1 / 20) 1 (by norm_num)
    ⟨1, 0, 0, 1000000, 12500 / 3, 287500 / 3, 2712500 / 3⟩
    (by rw [hgen]; exact List.mem_cons_self _ _)


/-- Counterexample for C1 as stated: with a capex schedule containing a
negative entry (refund month), the schedule has a period with negative
ending balance (and a principal of 0 exceeding beginning + drawdowns
= -50), so the unqualified claim fails. -/
theorem debtSchedule_negative_capex_counterexample :
    ¬ (∀ e ∈ generate_debt_schedule 100 1 [(0, -50), (1, 150)] (fun _ => none)
        (fun _ => none) 10 0 12 Freq.monthly [0, 1] 0 0 7,
        e.ending_balance = e.beginning_balance + e.drawdowns - e.principal ∧
        e.principal ≤ e.beginning_balance + e.drawdowns ∧
        0 ≤ e.ending_balance) := by
  intro h
  have hgen : generate_debt_schedule 100 1 [(0, -50), (1, 150)] (fun _ => none)
      (fun _ => none) 10 0 12 Freq.monthly [0, 1] 0 0 7 =
      [⟨7, 0, 0, -50, 0, 0, -50⟩, ⟨7, 1, -50, 150, 0, 0, 100⟩] := by
    norm_num [generate_debt_schedule, genStep, drawdownFn, drawStep,
      paymentDates, stepOf, List.foldl]
  rw [hgen] at h
  have := (h ⟨7, 0, 0, -50, 0, 0, -50⟩ (List.mem_cons_self _ _)).2.2
  norm_num at this

/-- The schedule fold emits rows whose principal follows the per-period
recomputed rule. -/
lemma genFold_principal (D : ℚ) (acf bd : ℤ → Option ℚ) (dss : ℤ) (pr : ℚ)
    (tp : ℤ) (freq : Freq) (ar : ℚ) (pdates : List ℤ) (draw : ℤ → ℚ)
    (aid : ℕ) :
    ∀ (dr : List ℤ) (st : GenState),
    (∀ e ∈ st.rows, e.principal = principalRuleCore D acf bd dss pr tp freq
      pdates e.date (e.beginning_balance + e.drawdowns)) →
    (∀ e ∈ (dr.foldl (genStep D acf bd dss pr tp freq ar pdates draw aid) st).rows,
      e.principal = principalRuleCore D acf bd dss pr tp freq pdates e.date
        (e.beginning_balance + e.drawdowns)) := by
  intro dr
  induction dr with
  | nil => intro st h1; exact h1
  | cons d ds ih =>
    intro st h1
    simp only [List.foldl_cons]
    obtain ⟨i, q, heq⟩ := genStep_principal D acf bd dss pr tp freq ar pdates draw aid st d
    rw [heq]
    apply ih
    intro e he
    rcases List.mem_append.mp he with hold | hnew
    · exact h1 e hold
    · rcases List.mem_singleton.mp hnew with rfl
      rfl

/-- Claim C4 (amended): every row's principal equals the scheduler's own
per-period rule `principalRule` - recomputed from that period's cash flow
and blended target (monthly, default target 1.4), or straight-line
`debt/total_payments` (monthly fallback; times 3 quarterly), always capped
at the running balance - evaluated at the row's date and its
beginning-plus-drawdown balance.  The sizing result's annual principal is
never consulted. -/
theorem generate_principal_rule (D : ℚ) (life : ℕ)
    (capexRows : List (ℤ × ℚ)) (acf bd : ℤ → Option ℚ) (dss : ℤ) (pr : ℚ)
    (tp : ℤ) (freq : Freq) (dr : List ℤ) (cod : ℤ) (ar : ℚ) (aid : ℕ) :
    ∀ e ∈ generate_debt_schedule D life capexRows acf bd dss pr tp freq dr cod ar aid,
      e.principal = principalRule D life acf bd dss pr tp freq cod e.date
        (e.beginning_balance + e.drawdowns) := by
  intro e he
  unfold generate_debt_schedule at he
  split_ifs at he with hD
  · obtain ⟨d, _, rfl⟩ := List.mem_map.mp he
    unfold principalRule principalRuleCore
    norm_num
  · exact genFold_principal D acf bd dss pr tp freq ar
      (paymentDates dss (cod + 12 * (life : ℤ)) (stepOf freq))
      (drawdownFn D capexRows dr) aid dr ⟨[], 0, 0⟩
      (by intro x hx; exact absurd hx (List.not_mem_nil x)) e he

/-- Witness for C4 on the first payment row of a concrete schedule. -/
theorem generate_principal_rule_witness :
    (⟨1, 0, 0, 1000000, 12500 / 3, 287500 / 3, 1000000 - 287500 / 3⟩ :
        DebtEntry).principal =
      principalRule 1000000 1 (fun d => if d = 0 then some 100000 else none)
        (fun y => if y = 0 then some 1 else none) 0 (1 / 240) 12 Freq.monthly
        0 0 (0 + 1000000) := by
  have hgen : generate_debt_schedule 1000000 1 [(0, 1000000)]
      (fun d => if d = 0 then some 100000 else none)
      (fun y => if y = 0 then some 1 else none) 0 (1 / 240) 12 Freq.monthly
      [0] 0 (1 / 20) 1 =
      [⟨1, 0, 0, 1000000, 12500 / 3, 287500 / 3, 1000000 - 287500 / 3⟩] := by
    have hpay : ∃ a : ℕ, a < 13 ∧ (0 : ℤ) = ↑a := ⟨0, by norm_num, rfl⟩
    norm_num [generate_debt_schedule, genStep, drawdownFn, drawStep,
      paymentDates, stepOf, List.foldl, hpay]
  have := generate_principal_rule 1000000 1 [(0, 1000000)]
    (fun d => if d = 0 then some 100000 else none)
    (fun y => if y = 0 then some 1 else none) 0 (1 / 240) 12 Freq.monthly
    [0] 0 (1 / 20) 1
    (⟨1, 0, 0, 1000000, 12500 / 3, 287500 / 3, 1000000 - 287500 / 3⟩ : DebtEntry)
    (by rw [hgen]; exact List.mem_cons_self _ _)
  simpa using this

/-- Counterexample for C4 as stated: with sized debt 1,000,000 (annual
sculpted principal 1,000,000 for year 0), the generated monthly schedule's
first payment has principal 287500/3 = 95,833.33, not the claimed
1,000,000 / 12 = 83,333.33: the scheduler re-sculpts from the monthly cash
flow instead of pro-rating the sizing result. -/
theorem generate_principal_not_sized_counterexample :
    ((calculate_annual_debt_schedule 1000000 [1200000] (1 / 20) 1
        [1]).1.headD ⟨0, 0, 0, none⟩).principal = 1000000 ∧
    ((generate_debt_schedule 1000000 1 [(0, 1000000)]
        (fun d => if d = 0 then some 100000 else none)
        (fun y => if y = 0 then some 1 else none) 0 (1 / 240) 12 Freq.monthly
        [0] 0 (1 / 20) 1).headD
      ⟨0, 0, 0, 0, 0, 0, 0⟩).principal = 287500 / 3 ∧
    (287500 / 3 : ℚ) ≠ 1000000 / 12 := by
  refine ⟨?_, ?_, by norm_num⟩
  · norm_num [calculate_annual_debt_schedule, sculptPairs, targetAt,
      annualRowStep, stepBalance, sculptPrincipal, maxDS, List.range_succ]
  · have hpay : ∃ a : ℕ, a < 13 ∧ (0 : ℤ) = ↑a := ⟨0, by norm_num, rfl⟩
    norm_num [generate_debt_schedule, genStep, drawdownFn, drawStep,
      paymentDates, stepOf, List.foldl, hpay]

/-- Closed form of one year of the sculpted balance recursion:
new balance = max(min(b, (1+r)b - maxDS), 0). -/
lemma stepBalance_eq (r b : ℚ) (p : ℚ × ℚ) :
    stepBalance r b p = max (min b (b + b * r - maxDS p.1 p.2)) 0 := by
  unfold stepBalance sculptPrincipal
  rcases le_total (maxDS p.1 p.2 - b * r) 0 with h | h <;>
    rcases le_total b 0 with hb | hb <;>
      simp only [min_def, max_def] <;> split_ifs <;> linarith

/-- For rates of at least -100% the yearly balance step is monotone in the
opening balance. -/
lemma stepBalance_mono (r : ℚ) (hr : -1 ≤ r) (p : ℚ × ℚ) {b b' : ℚ}
    (h : b ≤ b') : stepBalance r b p ≤ stepBalance r b' p := by
  rw [stepBalance_eq, stepBalance_eq]
  have key : b + b * r ≤ b' + b' * r := by nlinarith
  exact max_le_max (min_le_min h (by linarith)) (le_refl 0)

/-- The multi-year balance fold is monotone in the initial debt. -/
lemma foldBalance_mono (r : ℚ) (hr : -1 ≤ r) :
    ∀ (ps : List (ℚ × ℚ)) {b b' : ℚ}, b ≤ b' →
      ps.foldl (stepBalance r) b ≤ ps.foldl (stepBalance r) b' := by
  intro ps
  induction ps with
  | nil => intro b b' h; exact h
  | cons p ps ih => intro b b' h; exact ih (stepBalance_mono r hr p h)

/-- The final balance is monotone in the initial debt (rate at least -1). -/
lemma finalBalance_mono (cfs : List ℚ) (r : ℚ) (tenor : ℕ) (tds : List ℚ)
    (hr : -1 ≤ r) {D D' : ℚ} (h : D' ≤ D) :
    finalBalance D' cfs r tenor tds ≤ finalBalance D cfs r tenor tds := by
  unfold finalBalance
  split_ifs
  · exact le_refl 0
  · exact foldBalance_mono r hr _ h

/-- Feasibility is downward closed in the debt amount (rate at least -1). -/
lemma fullyRepaid_mono (cfs : List ℚ) (r : ℚ) (tenor : ℕ) (tds : List ℚ)
    (hr : -1 ≤ r) {D D' : ℚ} (h : D' ≤ D)
    (hf : fullyRepaid D cfs r tenor tds = true) :
    fullyRepaid D' cfs r tenor tds = true := by
  simp only [fullyRepaid, decide_eq_true_eq] at *
  exact lt_of_le_of_lt (finalBalance_mono cfs r tenor tds hr h) hf

/-- A zero balance stays zero through a year step. -/
lemma stepBalance_zero (r : ℚ) (p : ℚ × ℚ) : stepBalance r 0 p = 0 := by
  rw [stepBalance_eq]
  rcases le_total (maxDS p.1 p.2) 0 with h | h <;>
    simp only [min_def, max_def] <;> split_ifs <;> linarith

/-- Zero debt is always feasible: the balance stays 0 < 1000. -/
lemma fullyRepaid_zero (cfs : List ℚ) (r : ℚ) (tenor : ℕ) (tds : List ℚ) :
    fullyRepaid 0 cfs r tenor tds = true := by
  have hfold : ∀ ps : List (ℚ × ℚ), ps.foldl (stepBalance r) 0 = 0 := by
    intro ps
    induction ps with
    | nil => rfl
    | cons p ps ih => simp only [List.foldl_cons, stepBalance_zero, ih]
  simp only [fullyRepaid, finalBalance, decide_eq_true_eq]
  split_ifs <;> simp [hfold]

/-- Loop invariant of the binary search: best-so-far equals the lower
bound and remains feasible. -/
lemma solveLoop_best_inv (cfs : List ℚ) (r : ℚ) (tenor : ℕ) (tds : List ℚ) :
    ∀ (fuel : ℕ) (lo up best : ℚ), best = lo →
      fullyRepaid best cfs r tenor tds = true →
      (solveLoop cfs r tenor tds fuel lo up best).2.2 =
        (solveLoop cfs r tenor tds fuel lo up best).1 ∧
      fullyRepaid (solveLoop cfs r tenor tds fuel lo up best).2.2
        cfs r tenor tds = true := by
  intro fuel
  induction fuel with
  | zero => intro lo up best h1 h2; exact ⟨h1, h2⟩
  | succ n ih =>
    intro lo up best h1 h2
    rw [solveLoop]
    split_ifs with hgap hfeas
    · exact ih ((lo + up) / 2) up ((lo + up) / 2) rfl hfeas
    · exact ih lo ((lo + up) / 2) best h1 h2
    · exact ⟨h1, h2⟩

/-- Loop invariant: once the upper bound is infeasible it stays so (it is
only ever lowered to midpoints that tested infeasible). -/
lemma solveLoop_up_inv (cfs : List ℚ) (r : ℚ) (tenor : ℕ) (tds : List ℚ) :
    ∀ (fuel : ℕ) (lo up best : ℚ),
      fullyRepaid up cfs r tenor tds = false →
      fullyRepaid (solveLoop cfs r tenor tds fuel lo up best).2.1
        cfs r tenor tds = false := by
  intro fuel
  induction fuel with
  | zero => intro lo up best h; exact h
  | succ n ih =>
    intro lo up best h
    rw [solveLoop]
    split_ifs with hgap hfeas
    · exact ih ((lo + up) / 2) up ((lo + up) / 2) h
    · exact ih lo ((lo + up) / 2) best (by
        rcases hb : fullyRepaid ((lo + up) / 2) cfs r tenor tds with _ | _
        · rfl
        · exact absurd hb hfeas)
    · exact h

/-- Claim C2 (amended): for a rate of at least -100% and a nonempty target
series, feasibility is downward closed (any amount below a feasible amount
is feasible); the debt returned by `solve_maximum_debt` is itself feasible;
and when the search's initial upper bound capex * max_gearing is infeasible
and the loop terminated on the tolerance (final gap at most 1000), the
returned debt plus one tolerance unit (1000) is infeasible.  (Without the
last qualification the boundary claim fails: when every amount up to the
gearing cap is repayable the cap, which the loop never tests, remains
feasible - see the counterexample.) -/
theorem solveMaximumDebt_search_properties (cfs tds : List ℚ) (r : ℚ)
    (tenor : ℕ) (capex mg : ℚ) (hr : -1 ≤ r) (htds : tds ≠ []) :
    (∀ D D' : ℚ, D' ≤ D → fullyRepaid D cfs r tenor tds = true →
      fullyRepaid D' cfs r tenor tds = true) ∧
    fullyRepaid (debtOf (solve_maximum_debt capex cfs tds mg r tenor))
      cfs r tenor tds = true ∧
    (capex ≠ 0 →
      fullyRepaid (capex * mg) cfs r tenor tds = false →
      (solveLoop cfs r tenor tds 50 0 (capex * mg) 0).2.1 -
        (solveLoop cfs r tenor tds 50 0 (capex * mg) 0).1 ≤ 1000 →
      fullyRepaid (debtOf (solve_maximum_debt capex cfs tds mg r tenor) + 1000)
        cfs r tenor tds = false) := by
  refine ⟨fun D D' hle hf => fullyRepaid_mono cfs r tenor tds hr hle hf, ?_, ?_⟩
  · unfold solve_maximum_debt
    split_ifs with hc
    · simpa [debtOf] using fullyRepaid_zero cfs r tenor tds
    all_goals simpa [debtOf] using
      (solveLoop_best_inv cfs r tenor tds 50 0 (capex * mg) 0 rfl
        (fullyRepaid_zero cfs r tenor tds)).2
  · intro hc hup hgap
    have hinv := solveLoop_best_inv cfs r tenor tds 50 0 (capex * mg) 0 rfl
      (fullyRepaid_zero cfs r tenor tds)
    have hupf := solveLoop_up_inv cfs r tenor tds 50 0 (capex * mg) 0 hup
    have hdebt : debtOf (solve_maximum_debt capex cfs tds mg r tenor) =
        (solveLoop cfs r tenor tds 50 0 (capex * mg) 0).2.2 := by
      unfold solve_maximum_debt
      rw [if_neg hc]
      simp [debtOf]
    rw [hdebt]
    have hge : (solveLoop cfs r tenor tds 50 0 (capex * mg) 0).2.1 ≤
        (solveLoop cfs r tenor tds 50 0 (capex * mg) 0).2.2 + 1000 := by
      rw [hinv.1]; linarith
    rcases hres : fullyRepaid
        ((solveLoop cfs r tenor tds 50 0 (capex * mg) 0).2.2 + 1000)
        cfs r tenor tds with _ | _
    · rfl
    · have htrue := fullyRepaid_mono cfs r tenor tds hr hge hres
      rw [hupf] at htrue
      exact Bool.noConfusion htrue

/-- Witness for C2 at a concrete feasible search. -/
theorem solveMaximumDebt_search_properties_witness :
    fullyRepaid (debtOf (solve_maximum_debt 1000000 [2000] [1] (7 / 10) 0 1))
      [2000] 0 1 [1] = true :=
  (solveMaximumDebt_search_properties [2000] [1] 0 1 1000000 (7 / 10)
    (by norm_num) (by decide)).2.1

/-- Counterexample for C2 as stated: the claim quantifies over every
interest rate, but at rate -200% feasibility is not downward closed:
debt 20,000 on cash flow [-15000] with target DSCR 1 is fully repaid
(negative interest -40,000 allows principal 20,000), while the smaller
debt 10,000 is not (final balance 5,000 >= 1000). -/
theorem solveMaximumDebt_monotonicity_counterexample :
    (10000 : ℚ) ≤ 20000 ∧
    fullyRepaid 20000 [-15000] (-2) 1 [1] = true ∧
    fullyRepaid 10000 [-15000] (-2) 1 [1] = false := by
  refine ⟨by norm_num, ?_, ?_⟩ <;>
    norm_num [fullyRepaid, finalBalance, sculptPairs, targetAt, stepBalance,
      sculptPrincipal, maxDS, List.range_succ]

/-- Peeling one asset off the terminal-value sum. -/
lemma terminalFor_cons (a : AssetInfo) (as : List AssetInfo)
    (cost : String → Option ℚ) (dates : List ℤ) (aid : ℕ) (d : ℤ) :
    terminalFor (a :: as) cost dates aid d =
      (if a.id = aid ∧ tvDateOf a = d ∧ a.name ≠ "" ∧
          tvAmountOf cost a > 0 ∧ tvDateOf a ∈ dates
        then tvAmountOf cost a else 0) +
        terminalFor as cost dates aid d := by
  by_cases h : (a.id = aid ∧ tvDateOf a = d ∧ a.name ≠ "" ∧
      tvAmountOf cost a > 0 ∧ tvDateOf a ∈ dates)
  · obtain ⟨h1, h2, h3, h4, h5⟩ := h
    simp [terminalFor, List.filter_cons, h1, h2, h3, h4, h5,
      h2 ▸ h5, if_pos]
  · simp [terminalFor, List.filter_cons, h]

/-- Each output row of the terminal-value loop descends from exactly one
accumulator row, with all merge fields unchanged and the equity cash flow
increased by precisely the terminal values of the assets targeting that
(asset, date) key. -/
lemma applyTV_fold (cost : String → Option ℚ) (dates : List ℤ) :
    ∀ (as : List AssetInfo) (acc : List AggRow),
    ∀ out ∈ as.foldl (applyTV cost dates) acc,
    ∃ rr ∈ acc, out.asset_id = rr.asset_id ∧ out.date = rr.date ∧
      out.revenue = rr.revenue ∧ out.opex = rr.opex ∧
      out.equity_capex = rr.equity_capex ∧ out.interest = rr.interest ∧
      out.principal = rr.principal ∧ out.cfads = rr.cfads ∧
      out.equity_cash_flow = rr.equity_cash_flow +
        terminalFor as cost dates rr.asset_id rr.date := by
  intro as
  induction as with
  | nil =>
    intro acc out hout
    exact ⟨out, hout, rfl, rfl, rfl, rfl, rfl, rfl, rfl, rfl, by
      simp [terminalFor]⟩
  | cons a as ih =>
    intro acc out hout
    simp only [List.foldl_cons] at hout
    obtain ⟨rr', hrr', g1, g2, g3, g4, g5, g6, g7, g8, g9⟩ :=
      ih (applyTV cost dates acc a) out hout
    unfold applyTV at hrr'
    by_cases hcond : (a.name ≠ "" ∧ tvAmountOf cost a > 0 ∧ tvDateOf a ∈ dates)
    · rw [if_pos hcond] at hrr'
      obtain ⟨rr, hrr, hfr⟩ := List.mem_map.mp hrr'
      by_cases hmatch : (rr.asset_id = a.id ∧ rr.date = tvDateOf a)
      · rw [if_pos hmatch] at hfr
        subst hfr
        simp only at g1 g2 g3 g4 g5 g6 g7 g8 g9
        refine ⟨rr, hrr, g1, g2, g3, g4, g5, g6, g7, g8, ?_⟩
        rw [g9, terminalFor_cons,
          if_pos ⟨hmatch.1.symm, hmatch.2.symm, hcond⟩]
        ring
      · rw [if_neg hmatch] at hfr
        subst hfr
        refine ⟨rr, hrr, g1, g2, g3, g4, g5, g6, g7, g8, ?_⟩
        rw [g9, terminalFor_cons, if_neg]
        · ring
        · intro hfull
          exact hmatch ⟨hfull.1.symm, hfull.2.1.symm⟩
    · rw [if_neg hcond] at hrr'
      refine ⟨rr', hrr', g1, g2, g3, g4, g5, g6, g7, g8, ?_⟩
      rw [g9, terminalFor_cons, if_neg]
      · ring
      · intro hfull
        exact hcond hfull.2.2

/-- Claim C5: every consolidated row satisfies cfads = revenue - opex and
equity_cash_flow = cfads - interest - principal - equity_capex +
terminalFor(...), where `terminalFor` adds the asset's terminal value
exactly once on the single period one month before operating_start +
asset_life (for a named asset with positive terminal value, terminal value
enabled) and adds nothing anywhere when that period is absent from the
computed date range. -/
theorem aggregate_equity_cash_flow_invariant (rows : List AggRowIn)
    (assets : List AssetInfo) (cost : String → Option ℚ) :
    ∀ out ∈ aggregate_cashflows rows assets cost true,
      out.cfads = out.revenue - out.opex ∧
      out.equity_cash_flow = out.cfads - out.interest - out.principal -
        out.equity_capex +
        terminalFor assets cost (rows.map AggRowIn.date) out.asset_id
          out.date := by
  intro out hout
  unfold aggregate_cashflows at hout
  rw [if_pos rfl] at hout
  obtain ⟨rr, hrr, g1, g2, g3, g4, g5, g6, g7, g8, g9⟩ :=
    applyTV_fold cost (rows.map AggRowIn.date) assets (rows.map mkBaseRow)
      out hout
  obtain ⟨r0, _, rfl⟩ := List.mem_map.mp hrr
  simp only [mkBaseRow] at g1 g2 g3 g4 g5 g6 g7 g8 g9
  constructor
  · rw [g8, g3, g4]
  · rw [g9, g1, g2, g8, g5, g6, g7]

/-- Witness for C5 on a one-row, one-asset aggregation with terminal
value 50 landing on the row date. -/
theorem aggregate_equity_cash_flow_invariant_witness :
    (⟨1, 10, 100, 30, 5, 2, 3, 70, some 14, 110, 50⟩ : AggRow).cfads =
        (⟨1, 10, 100, 30, 5, 2, 3, 70, some 14, 110, 50⟩ : AggRow).revenue -
        (⟨1, 10, 100, 30, 5, 2, 3, 70, some 14, 110, 50⟩ : AggRow).opex ∧
    (⟨1, 10, 100, 30, 5, 2, 3, 70, some 14, 110, 50⟩ : AggRow).equity_cash_flow =
      (⟨1, 10, 100, 30, 5, 2, 3, 70, some 14, 110, 50⟩ : AggRow).cfads -
        (⟨1, 10, 100, 30, 5, 2, 3, 70, some 14, 110, 50⟩ : AggRow).interest -
        (⟨1, 10, 100, 30, 5, 2, 3, 70, some 14, 110, 50⟩ : AggRow).principal -
        (⟨1, 10, 100, 30, 5, 2, 3, 70, some 14, 110, 50⟩ : AggRow).equity_capex +
        terminalFor [⟨1, "A", -1, 1⟩]
          (fun n => if n = "A" then some 50 else none)
          ([(⟨1, 10, 100, 30, 5, 2, 3⟩ : AggRowIn)].map AggRowIn.date)
          (⟨1, 10, 100, 30, 5, 2, 3, 70, some 14, 110, 50⟩ : AggRow).asset_id
          (⟨1, 10, 100, 30, 5, 2, 3, 70, some 14, 110, 50⟩ : AggRow).date := by
  have hA : ("A" : String) ≠ "" := by decide
  have hagg : aggregate_cashflows [⟨1, 10, 100, 30, 5, 2, 3⟩] [⟨1, "A", -1, 1⟩]
      (fun n => if n = "A" then some 50 else none) true =
      [⟨1, 10, 100, 30, 5, 2, 3, 70, some 14, 110, 50⟩] := by
    norm_num [aggregate_cashflows, mkBaseRow, applyTV, tvDateOf, tvAmountOf,
      List.foldl, hA]
  exact aggregate_equity_cash_flow_invariant [⟨1, 10, 100, 30, 5, 2, 3⟩]
    [⟨1, "A", -1, 1⟩] (fun n => if n = "A" then some 50 else none)
    ⟨1, 10, 100, 30, 5, 2, 3, 70, some 14, 110, 50⟩
    (by rw [hagg]; exact List.mem_cons_self _ _)

/-- With an empty schedule and zero debt, an asset contributes no schedule
rows and (when its total capex is positive) a 100% equity capex split. -/
lemma assetContribution_zero (capexRows : List CapexEntry) (a : Asset) :
    assetContribution capexRows a [] 0 =
      ([], if ((capexRows.filter (fun c => decide (c.asset_id = a.id))).map
            CapexEntry.capex).sum > 0 then
          (capexRows.filter (fun c => decide (c.asset_id = a.id))).map
            (fun c => (⟨c.asset_id, c.date, c.capex, 0, c.capex⟩ : CapexSplitRow))
        else []) := by
  unfold assetContribution
  split_ifs with htot h0 <;> simp_all

/-- With an unrecognised sizing method every asset falls into the silent
default branch: no schedule rows, all-equity capex splits. -/
lemma calcAssets_unknown (dassump : String → DebtAssump)
    (capexRows : List CapexEntry) (cashRows : List CashRow) (s e : ℤ)
    (freq : Freq) (grace method : String)
    (h1 : method ≠ "dscr") (h2 : method ≠ "annuity") :
    ∀ assets : List Asset,
      calcAssets dassump capexRows cashRows s e freq grace method assets =
        .ok ([], (assets.map (fun a =>
          let acapex := capexRows.filter (fun c => decide (c.asset_id = a.id))
          if (acapex.map CapexEntry.capex).sum > 0 then
            acapex.map (fun c =>
              (⟨c.asset_id, c.date, c.capex, 0, c.capex⟩ : CapexSplitRow))
          else [])).flatten) := by
  intro assets
  induction assets with
  | nil => simp [calcAssets]
  | cons a rest ih =>
    unfold calcAssets processAsset
    rw [if_neg h1, if_neg h2]
    simp only [bind, Except.bind, ih, assetContribution_zero]
    simp [List.flatten_cons]

/-- Claim C7 (amended): a `debt_sizing_method` that is neither `dscr` nor
`annuity` is silently defaulted, not failed fast: `calculate_debt_schedule`
returns a normal (non-error) result with an empty debt schedule and every
asset's capex split as zero debt / 100% equity. -/
theorem unknown_method_silent_default (assets : List Asset)
    (dassump : String → DebtAssump) (capexRows : List CapexEntry)
    (cashRows : List CashRow) (s e : ℤ) (freq : Freq) (grace method : String)
    (h1 : method ≠ "dscr") (h2 : method ≠ "annuity") :
    calculate_debt_schedule assets dassump capexRows cashRows s e freq grace
      method = Except.ok ([], zeroDebtCapex assets capexRows) := by
  unfold calculate_debt_schedule zeroDebtCapex
  rw [calcAssets_unknown dassump capexRows cashRows s e freq grace method
    h1 h2 assets]
  simp only [bind, Except.bind]

/-- Witness for C7 with the unknown method string "foo". -/
theorem unknown_method_silent_default_witness :
    calculate_debt_schedule [⟨1, "A", 0, 1⟩]
      (fun _ => ⟨100, 7 / 10, 1 / 20, 18, 7 / 5, 9 / 5, "sculpting"⟩)
      [⟨1, 0, 100⟩] [] 0 1 Freq.monthly "none" "foo" =
    Except.ok ([], zeroDebtCapex [⟨1, "A", 0, 1⟩] [⟨1, 0, 100⟩]) :=
  unknown_method_silent_default [⟨1, "A", 0, 1⟩]
    (fun _ => ⟨100, 7 / 10, 1 / 20, 18, 7 / 5, 9 / 5, "sculpting"⟩)
    [⟨1, 0, 100⟩] [] 0 1 Freq.monthly "none" "foo" (by decide) (by decide)

/-- Counterexample for C7 as stated: the claim requires an error reported
to the caller for an unknown method, but the concrete call with method
"foo" returns a successful result (no raise, no error value) carrying a
silent zero-debt / 100%-equity split. -/
theorem unknown_method_no_error_counterexample :
    calculate_debt_schedule [⟨1, "A", 0, 1⟩]
      (fun _ => ⟨100, 7 / 10, 1 / 20, 18, 7 / 5, 9 / 5, "sculpting"⟩)
      [⟨1, 0, 100⟩] [] 0 1 Freq.monthly "none" "foo" =
    Except.ok ([], [⟨1, 0, 100, 0, 100⟩]) := by
  unfold calculate_debt_schedule
  rw [calcAssets_unknown _ _ _ _ _ _ _ _ (by decide) (by decide)]
  norm_num [bind, Except.bind, List.filter]
